import Mathlib

/-!
Shallow embedding of the manemanebot personal-finance bot (src/main.py).

The four CSV tables become lists of records inside a `Store`; `append_file`
becomes list concatenation.  `datetime.now(timezone('UTC'))` becomes a
natural-number clock `Store.now` that is read whenever the source calls
`datetime.now` and incremented right after, which models sequential
(single-writer) execution where successive wall-clock reads are strictly
increasing.  Python `float` amounts are modelled as rationals; the outcome of
Python's `float(text)` parser (an external library call) is modelled by the
`ParsedText` inductive: the transport either delivered text that parses to a
number or text that raises `ValueError`.  Outbound chat messages are modelled
by the abstract `Reply` inductive.  Each Telegram handler of the source
becomes a function of the same name from the current store, the per-chat
session (`context.user_data`) and the turn's input to a `StepOut`; a
persistence failure of an `append_file` call (an exception caught by the
handler's `try/except`) is modelled by the boolean failure flags that the
commit handlers take, one per append they attempt, in program order.
-/

/-- Row of users.csv: columns `chat_id, username` (ALL_FILES in main.py). -/
structure UserRec where
  chat_id : Nat
  username : String
  deriving DecidableEq

/-- Row of accounts.csv: columns `account_id, chat_id, account_name,
account_type, currency`. -/
structure AccountRec where
  account_id : Nat
  chat_id : Nat
  account_name : String
  account_type : String
  currency : String
  deriving DecidableEq

/-- Row of balances.csv: columns `chat_id, account_id, balance, currency,
date`. -/
structure BalanceRec where
  chat_id : Nat
  account_id : Nat
  balance : ℚ
  currency : String
  date : Nat
  deriving DecidableEq

/-- Row of transactions.csv: columns `transaction_id, chat_id, timestamp,
amount, account_id, category, description, transaction_type, tags`. -/
structure TransactionRec where
  transaction_id : Nat
  chat_id : Nat
  timestamp : Nat
  amount : ℚ
  account_id : Nat
  category : String
  description : String
  transaction_type : String
  tags : String
  deriving DecidableEq

/-- The four CSV tables plus the model clock for `datetime.now`. -/
structure Store where
  users : List UserRec
  accounts : List AccountRec
  balances : List BalanceRec
  transactions : List TransactionRec
  now : Nat
  deriving DecidableEq

/-- The state `init_csvs` produces on a fresh data folder: four empty tables. -/
def emptyStore : Store := ⟨[], [], [], [], 0⟩

/-- `CATEGORIES` from main.py. -/
def CATEGORIES : List String := ["Salary", "Groceries", "Entertainment", "Shopping", "Activities"]

/-- The `ConversationHandler` states of the two dialogs plus the terminal
`ConversationHandler.END`.  The source numbers each dialog's states 0..3
in its own handler; distinct names are used here since the dialogs are
separate state machines. -/
inductive ConvState where
  | ACCOUNT_NAME
  | ACCOUNT_TYPE
  | CURRENCY
  | INITIAL_BALANCE
  | ACCOUNT_SELECTION
  | TRANSACTION_AMOUNT
  | CATEGORY
  | DESCRIPTION
  | END
  deriving DecidableEq

/-- The per-chat `context.user_data` dictionary: one optional slot per key
the source ever writes. -/
structure Session where
  account_name : Option String
  account_type : Option String
  currency : Option String
  account_id : Option Nat
  transaction_amount : Option ℚ
  category : Option String
  description : Option String
  deriving DecidableEq

/-- `context.user_data.clear()` / a fresh session. -/
def emptySession : Session := ⟨none, none, none, none, none, none, none⟩

/-- Abstract outbound messages, one constructor per distinct `reply_text`
(or `reply_html`) call site of main.py. -/
inductive Reply where
  | welcome
  | promptName
  | nameEmptyReprompt
  | chooseType
  | chooseCurrency
  | promptInitialBalance
  | balanceInvalidReprompt
  | accountCreated (name : String)
  | persistFailCreate
  | cancelMsg
  | noAccountRedirect
  | chooseAccount
  | promptAmount
  | amountInvalidReprompt
  | chooseCategory
  | promptDescription
  | txSaved (name : String) (balance : ℚ) (currency : String)
  | persistFailTx
  deriving DecidableEq

/-- Outcome of Python `float(text.strip())`: either the stripped text parses
to a number, or `float` raises `ValueError`.  `raw` is the original text
(the emptiness check of `initial_balance` inspects it before parsing). -/
inductive ParsedText where
  | numeric (raw : String) (value : ℚ)
  | nonNumeric (raw : String)
  deriving DecidableEq

/-- The original text carried by a `ParsedText`. -/
def ParsedText.raw : ParsedText → String
  | .numeric r _ => r
  | .nonNumeric r => r

/-- Result of one handler invocation: the store after its appends, the
session after its `user_data` writes, the `ConversationHandler` state it
returns, and the messages it sent, in order. -/
structure StepOut where
  store : Store
  session : Session
  state : ConvState
  replies : List Reply
  deriving DecidableEq

/-- Python `str.strip()` whitespace test (space, tab, newline, carriage
return). -/
def isSpace (c : Char) : Bool := c == ' ' || c == '\t' || c == '\n' || c == '\r'

/-- Python `str.strip()`: drop whitespace from both ends. -/
def pyStrip (s : String) : String :=
  ⟨((s.data.dropWhile isSpace).reverse.dropWhile isSpace).reverse⟩

/-- Python `str.lower()`. -/
def pyLower (s : String) : String := ⟨s.data.map Char.toLower⟩

/-- `full_name.replace(",", ";")` from the `start` handler (the replaced
pattern is a single character, so characterwise mapping is exact). -/
def replaceCommas (s : String) : String :=
  ⟨s.data.map (fun c => if c == ',' then ';' else c)⟩

/-- `add_user` (main.py:71): append a User row iff no existing row has this
`chat_id`. -/
def add_user (s : Store) (chat : Nat) (username : String) : Store :=
  if s.users.any (fun u => u.chat_id == chat) then s
  else { s with users := s.users ++ [⟨chat, username⟩] }

/-- The `start` command handler (main.py:83): sanitize the display name and
register the user; it performs no other table writes. -/
def start (s : Store) (chat : Nat) (full_name : String) : Store :=
  add_user s chat (replaceCommas full_name)

/-- `check_if_user_has_an_account` (main.py:79). -/
def check_if_user_has_an_account (accounts : List AccountRec) (chat : Nat) : Bool :=
  !(accounts.filter (fun r => r.chat_id == chat)).isEmpty

/-- The rows behind `get_account_mappings` (main.py:212): the chat's own
account rows, in table order. -/
def get_account_mappings (accounts : List AccountRec) (chat : Nat) : List AccountRec :=
  accounts.filter (fun r => r.chat_id == chat)

/-- `account_mappings.get(account_id, {})`: the dict comprehension of
`get_account_mappings` keeps the last row per `account_id`, so lookup is
`find?` over the reversed filtered rows. -/
def lookupAccount (accounts : List AccountRec) (chat : Nat) (aid : Nat) : Option AccountRec :=
  ((get_account_mappings accounts chat).reverse).find? (fun r => r.account_id == aid)

/-- `pandas` column max over a list of ids (0 on an empty list; the callers
guard emptiness separately, as the source does). -/
def pandasMax (l : List Nat) : Nat := l.foldr max 0

/-- `accounts_df['account_id'].max() + 1 if not accounts_df.empty else 1`
(main.py:173). -/
def nextAccountId (accounts : List AccountRec) : Nat :=
  if accounts.isEmpty then 1 else pandasMax (accounts.map (fun a => a.account_id)) + 1

/-- `transactions_df['transaction_id'].max() + 1 if not transactions_df.empty
else 1` (main.py:374). -/
def nextTransactionId (txs : List TransactionRec) : Nat :=
  if txs.isEmpty then 1 else pandasMax (txs.map (fun t => t.transaction_id)) + 1

/-- The binary step of `sort_values(by='date', ascending=False).iloc[0]`:
keep the row with the later date (on equal dates the earlier row is kept;
the source leaves ties unspecified and the model clock never produces
them). -/
def pickNewer (acc x : BalanceRec) : BalanceRec := if acc.date < x.date then x else acc

/-- The row `sort_values(by='date', ascending=False).iloc[0]` selects: a row
of maximal `date`, or `none` on an empty selection. -/
def pickLatest : List BalanceRec → Option BalanceRec
  | [] => none
  | r :: rs => some (rs.foldl pickNewer r)

/-- The derived current balance of §4.3: the `balance` of the snapshot with
the latest timestamp among the rows of the `(chat_id, account_id)` pair. -/
def currentBalance (balances : List BalanceRec) (chat aid : Nat) : Option ℚ :=
  (pickLatest (balances.filter (fun r => r.chat_id == chat && r.account_id == aid))).map
    (fun r => r.balance)

/-- `update_balance` (main.py:310): take the latest snapshot of the pair (or
start from the bare amount when none exists), add the amount, append the new
snapshot.  Returns the new store and the `new_balance` return value. -/
def update_balance (s : Store) (chat aid : Nat) (amount : ℚ) (curr : String) : Store × ℚ :=
  let existing := s.balances.filter (fun r => r.chat_id == chat && r.account_id == aid)
  let new_balance :=
    match pickLatest existing with
    | some r => r.balance + amount
    | none => amount
  ({ s with
      balances := s.balances ++ [⟨chat, aid, new_balance, curr, s.now⟩],
      now := s.now + 1 },
    new_balance)

/-- `start_create_account` (main.py:101). -/
def start_create_account (s : Store) (sess : Session) : StepOut :=
  ⟨s, sess, .ACCOUNT_NAME, [.promptName]⟩

/-- `account_name` handler (main.py:107): empty stripped input re-prompts,
otherwise the name is stored and the dialog advances. -/
def account_name (s : Store) (sess : Session) (text : String) : StepOut :=
  let stripped := pyStrip text
  if stripped.isEmpty then ⟨s, sess, .ACCOUNT_NAME, [.nameEmptyReprompt]⟩
  else ⟨s, { sess with account_name := some stripped }, .ACCOUNT_TYPE, [.chooseType]⟩

/-- `account_type` handler (main.py:126): stores the callback payload. -/
def account_type (s : Store) (sess : Session) (data : String) : StepOut :=
  ⟨s, { sess with account_type := some data }, .CURRENCY, [.chooseCurrency]⟩

/-- `currency` handler (main.py:143): stores the callback payload. -/
def currency (s : Store) (sess : Session) (data : String) : StepOut :=
  ⟨s, { sess with currency := some data }, .INITIAL_BALANCE, [.promptInitialBalance]⟩

/-- `initial_balance` handler (main.py:154).  `failAcc` / `failBal` model an
exception raised by the accounts append / the balances append; the `except`
block replies with the generic failure message and returns `END` without
clearing the session. -/
def initial_balance (s : Store) (sess : Session) (chat : Nat) (input : ParsedText)
    (failAcc failBal : Bool) : StepOut :=
  if (pyStrip input.raw).isEmpty then
    ⟨s, sess, .INITIAL_BALANCE, [.balanceInvalidReprompt]⟩
  else
    match input with
    | .nonNumeric _ => ⟨s, sess, .INITIAL_BALANCE, [.balanceInvalidReprompt]⟩
    | .numeric _ b0 =>
      let acc_name := sess.account_name.getD ""
      let atype := sess.account_type.getD ""
      let curr := sess.currency.getD ""
      let aid := nextAccountId s.accounts
      if failAcc then ⟨s, sess, .END, [.persistFailCreate]⟩
      else
        let s1 : Store := { s with accounts := s.accounts ++ [⟨aid, chat, acc_name, atype, curr⟩] }
        if failBal then ⟨s1, sess, .END, [.accountCreated acc_name, .persistFailCreate]⟩
        else
          let s2 : Store := { s1 with
            balances := s1.balances ++ [⟨chat, aid, b0, curr, s1.now⟩],
            now := s1.now + 1 }
          ⟨s2, emptySession, .END, [.accountCreated acc_name]⟩

/-- `cancel` fallback (main.py:206): reply, `user_data.clear()`, `END`.  It
touches no table. -/
def cancel (s : Store) (_sess : Session) : StepOut :=
  ⟨s, emptySession, .END, [.cancelMsg]⟩

/-- `start_add_transaction` (main.py:227): gate on owning at least one
account, checked twice in the source (`check_if_user_has_an_account`, then
the emptiness of the mappings). -/
def start_add_transaction (s : Store) (sess : Session) (chat : Nat) : StepOut :=
  if !check_if_user_has_an_account s.accounts chat then
    ⟨s, sess, .END, [.noAccountRedirect]⟩
  else if (get_account_mappings s.accounts chat).isEmpty then
    ⟨s, sess, .END, [.noAccountRedirect]⟩
  else
    ⟨s, sess, .ACCOUNT_SELECTION, [.chooseAccount]⟩

/-- `handle_account_selection` (main.py:258): stores the callback payload as
the selected account id, with no ownership check. -/
def handle_account_selection (s : Store) (sess : Session) (data : Nat) : StepOut :=
  ⟨s, { sess with account_id := some data }, .TRANSACTION_AMOUNT, [.promptAmount]⟩

/-- `handle_amount` (main.py:275): a `ValueError` from `float` re-prompts,
otherwise the amount is stored and the category keyboard is presented. -/
def handle_amount (s : Store) (sess : Session) (input : ParsedText) : StepOut :=
  match input with
  | .numeric _ v =>
    ⟨s, { sess with transaction_amount := some v }, .CATEGORY, [.chooseCategory]⟩
  | .nonNumeric _ => ⟨s, sess, .TRANSACTION_AMOUNT, [.amountInvalidReprompt]⟩

/-- The category keyboard of `handle_amount`: for each category, a button
labelled with the category whose callback payload is its 1-based index as a
string (`enumerate(CATEGORIES, 1)` with `callback_data=str(idx)`). -/
def categoryButtons : List (String × String) :=
  CATEGORIES.enum.map (fun p => (p.2, toString (p.1 + 1)))

/-- `handle_category` (main.py:301): stores the callback payload — the index
string — directly into `user_data['category']`. -/
def handle_category (s : Store) (sess : Session) (data : String) : StepOut :=
  ⟨s, { sess with category := some data }, .DESCRIPTION, [.promptDescription]⟩

/-- The description normalization of `handle_description` (main.py:359):
strip, then map a (case-insensitive) literal `none` to the empty string. -/
def descOf (text : String) : String :=
  let d := pyStrip text
  if pyLower d == "none" then "" else d

/-- `handle_description` (main.py:358), the commit step of AddTransaction.
`failTx` / `failBal` model an exception raised by the transactions append /
the balances append inside `update_balance`.  The source looks up
`account_info` with a `{}` default, appends the Transaction row, and only
then evaluates `account_info['currency']` — so when the selected account is
not among the chat's own, the Transaction append has already happened when
the `KeyError` sends execution to the `except` block. -/
def handle_description (s : Store) (sess : Session) (chat : Nat) (text : String)
    (failTx failBal : Bool) : StepOut :=
  let description := descOf text
  let sess1 : Session := { sess with description := some description }
  let aid := sess1.account_id.getD 0
  let amount := sess1.transaction_amount.getD 0
  let category := sess1.category.getD ""
  let info := lookupAccount s.accounts chat aid
  let tid := nextTransactionId s.transactions
  if failTx then ⟨s, sess1, .END, [.persistFailTx]⟩
  else
    let tx : TransactionRec :=
      ⟨tid, chat, s.now, amount, aid, category, description,
        if 0 < amount then "income" else "expense", ""⟩
    let s1 : Store := { s with transactions := s.transactions ++ [tx], now := s.now + 1 }
    match info with
    | none => ⟨s1, sess1, .END, [.persistFailTx]⟩
    | some acc =>
      if failBal then ⟨s1, sess1, .END, [.persistFailTx]⟩
      else
        let res := update_balance s1 chat aid amount acc.currency
        ⟨res.1, emptySession, .END, [.txSaved acc.account_name res.2 acc.currency]⟩

/-- A completed CreateAccount dialog: `initial_balance` on a session holding
the collected name/type/currency, with a numeric balance input and no
persistence failure.  The raw text stands for any non-empty numeric literal;
only its parsed value is ever used. -/
def createAccountRun (s : Store) (chat : Nat) (name atype curr : String) (b0 : ℚ) : Store :=
  (initial_balance s ⟨some name, some atype, some curr, none, none, none, none⟩
    chat (ParsedText.numeric "1" b0) false false).store

/-- A completed AddTransaction dialog for account `aid`: `handle_description`
on a session holding the collected account id, amount and category callback,
with no persistence failure.  `p = (amount, category payload, description
text)`. -/
def recordTxRun (s : Store) (chat aid : Nat) (p : ℚ × String × String) : Store :=
  (handle_description s ⟨none, none, none, some aid, some p.1, some p.2.1, none⟩
    chat p.2.2 false false).store

/-- All balance snapshots carry a date strictly before the store clock; every
operation of the model preserves this. -/
def datesBelow (s : Store) : Prop := ∀ r ∈ s.balances, r.date < s.now

/-- The id-minting pattern shared by `nextAccountId` and `nextTransactionId`,
over the bare id column. -/
def nextIdOf (ids : List Nat) : Nat := if ids.isEmpty then 1 else pandasMax ids + 1

/-- Per-creation inputs of one completed CreateAccount dialog. -/
structure CreateParams where
  chat : Nat
  name : String
  atype : String
  curr : String
  b0 : ℚ

/-- Per-recording inputs of one completed AddTransaction dialog. -/
structure TxParams where
  chat : Nat
  aid : Nat
  amount : ℚ
  category : String
  text : String

/-- `n` sequential account creations starting from empty tables. -/
def createFold (ps : List CreateParams) : Store :=
  ps.foldl (fun s p => createAccountRun s p.chat p.name p.atype p.curr p.b0) emptyStore

/-- `n` sequential transaction recordings starting from empty tables. -/
def txFold (qs : List TxParams) : Store :=
  qs.foldl (fun s q => recordTxRun s q.chat q.aid (q.amount, q.category, q.text)) emptyStore

/-- Store after `create_account` for chat 42, the spec §8 example. -/
def c2Store : Store := createAccountRun emptyStore 42 "Wallet" "usual" "USD" 100

/-- The spec §8 example AddTransaction dialog run end to end: select account
1, enter -25.50, press the second category button (labelled Groceries,
callback payload "2"), description `none`. -/
def c2Out : StepOut :=
  let o1 := handle_account_selection c2Store emptySession 1
  let o2 := handle_amount o1.store o1.session (ParsedText.numeric "-25.50" (-51/2))
  let o3 := handle_category o2.store o2.session "2"
  handle_description o3.store o3.session 42 "none" false false

/-- A store whose only account (id 1) is owned by chat 99. -/
def c3Store : Store := createAccountRun emptyStore 99 "Wallet" "usual" "USD" 100

/-- Chat 42 completing AddTransaction with a callback payload naming account
1, which chat 42 does not own. -/
def c3Out : StepOut :=
  handle_description c3Store ⟨none, none, none, some 1, some 5, some "1", none⟩ 42 "d" false false

/-- A CreateAccount session with all three fields collected. -/
def c5Sess : Session := ⟨some "Wallet", some "usual", some "USD", none, none, none, none⟩

/-- Claim C6: cancelling either dialog from any state and any partially
collected session clears the session, transitions to the terminal state, and
leaves every table (users, accounts, balances, transactions) unchanged. -/
theorem c6_cancel_persists_nothing (s : Store) (sess : Session) :
    (cancel s sess).store.users = s.users ∧
    (cancel s sess).store.accounts = s.accounts ∧
    (cancel s sess).store.balances = s.balances ∧
    (cancel s sess).store.transactions = s.transactions ∧
    (cancel s sess).session = emptySession ∧
    (cancel s sess).state = ConvState.END :=
  ⟨rfl, rfl, rfl, rfl, rfl, rfl⟩

/-- Claim C7: entering `add_transaction` as a chat owning zero accounts never
reaches the ACCOUNT_SELECTION state, appends nothing, and redirects the user
to account creation. -/
theorem c7_gating_no_accounts (s : Store) (sess : Session) (chat : Nat)
    (h : get_account_mappings s.accounts chat = []) :
    (start_add_transaction s sess chat).state = ConvState.END ∧
    (start_add_transaction s sess chat).state ≠ ConvState.ACCOUNT_SELECTION ∧
    (start_add_transaction s sess chat).store = s ∧
    (start_add_transaction s sess chat).replies = [Reply.noAccountRedirect] := by
  have hc : check_if_user_has_an_account s.accounts chat = false := by
    simp only [get_account_mappings] at h
    simp [check_if_user_has_an_account, h]
  refine ⟨?_, ?_, ?_, ?_⟩ <;> simp [start_add_transaction, hc]

/-- Witness for C7 at a concrete chat owning no accounts. -/
theorem c7_gating_no_accounts_witness :
    get_account_mappings emptyStore.accounts 42 = [] ∧
    (start_add_transaction emptyStore emptySession 42).state = ConvState.END :=
  ⟨by decide, (c7_gating_no_accounts emptyStore emptySession 42 (by decide)).1⟩

/-- Claim C9: a validation failure — whitespace-only account name, or
non-numeric text for the initial balance or the transaction amount —
re-prompts, stays in the same dialog state, changes no table and leaves the
collected session fields untouched. -/
theorem c9_validation_reprompt (s : Store) (sess : Session) (chat : Nat)
    (nameText rawB rawA : String) (failAcc failBal : Bool)
    (hname : (pyStrip nameText).isEmpty = true) :
    account_name s sess nameText
        = ⟨s, sess, ConvState.ACCOUNT_NAME, [Reply.nameEmptyReprompt]⟩ ∧
    initial_balance s sess chat (ParsedText.nonNumeric rawB) failAcc failBal
        = ⟨s, sess, ConvState.INITIAL_BALANCE, [Reply.balanceInvalidReprompt]⟩ ∧
    handle_amount s sess (ParsedText.nonNumeric rawA)
        = ⟨s, sess, ConvState.TRANSACTION_AMOUNT, [Reply.amountInvalidReprompt]⟩ := by
  refine ⟨?_, ?_, ?_⟩
  · simp [account_name, hname]
  · by_cases hb : (pyStrip rawB).isEmpty <;>
      simp [initial_balance, ParsedText.raw, hb]
  · rfl

/-- Witness for C9 at concrete invalid inputs. -/
theorem c9_validation_reprompt_witness :
    (pyStrip "   ").isEmpty = true ∧
    account_name emptyStore emptySession "   "
        = ⟨emptyStore, emptySession, ConvState.ACCOUNT_NAME, [Reply.nameEmptyReprompt]⟩ ∧
    initial_balance emptyStore emptySession 42 (ParsedText.nonNumeric "abc") false false
        = ⟨emptyStore, emptySession, ConvState.INITIAL_BALANCE, [Reply.balanceInvalidReprompt]⟩ ∧
    handle_amount emptyStore emptySession (ParsedText.nonNumeric "x1")
        = ⟨emptyStore, emptySession, ConvState.TRANSACTION_AMOUNT, [Reply.amountInvalidReprompt]⟩ :=
  ⟨by decide,
    (c9_validation_reprompt emptyStore emptySession 42 "   " "abc" "x1" false false (by decide)).1,
    (c9_validation_reprompt emptyStore emptySession 42 "   " "abc" "x1" false false (by decide)).2.1,
    (c9_validation_reprompt emptyStore emptySession 42 "   " "abc" "x1" false false (by decide)).2.2⟩

/-- Claim C10: the username stored by the `start` command is the transport's
display name with every comma replaced by a semicolon, so no stored username
contains a comma, and the stored username can differ from the presented
name. -/
theorem c10_username_commas_replaced (s : Store) (chat : Nat) (full_name : String)
    (hnew : s.users.any (fun u => u.chat_id == chat) = false) :
    (start s chat full_name).users = s.users ++ [⟨chat, replaceCommas full_name⟩] ∧
    (∀ c ∈ (replaceCommas full_name).data, c ≠ ',') ∧
    replaceCommas "a,b" ≠ "a,b" := by
  refine ⟨by simp [start, add_user, hnew], ?_, by decide⟩
  intro c hc
  simp only [replaceCommas] at hc
  rcases List.mem_map.1 hc with ⟨x, -, rfl⟩
  by_cases hx : x == ','
  · simp [hx]
  · have hx2 : x ≠ ',' := by simpa [beq_iff_eq] using hx
    simpa [hx] using hx2

/-- Witness for C10 at a concrete fresh chat and a name containing commas. -/
theorem c10_username_commas_replaced_witness :
    emptyStore.users.any (fun u => u.chat_id == 42) = false ∧
    (start emptyStore 42 "Doe, Jane").users
      = emptyStore.users ++ [⟨42, replaceCommas "Doe, Jane"⟩] :=
  ⟨by decide, (c10_username_commas_replaced emptyStore 42 "Doe, Jane" (by decide)).1⟩

/-- Once a chat has a User row, `add_user` is a no-op forever after. -/
theorem add_user_fold_noop (chat : Nat) (rest : List String) (t : Store)
    (ht : t.users.any (fun x => x.chat_id == chat) = true) :
    rest.foldl (fun r u => add_user r chat u) t = t := by
  induction rest with
  | nil => rfl
  | cons u us ih =>
    have hstep : add_user t chat u = t := by simp [add_user, ht]
    simpa [hstep] using ih

/-- Claim C8: `register_user` (`add_user`) is idempotent: from a store with
no User row for the chat, any positive number of calls leaves exactly one
User row for that chat; moreover a row is appended iff no row with that
`chat_id` exists, and otherwise the call is a no-op. -/
theorem c8_add_user_idempotent (s : Store) (chat : Nat) (names : List String)
    (hempty : s.users.filter (fun u => u.chat_id == chat) = [])
    (hne : names ≠ []) :
    ((names.foldl (fun t u => add_user t chat u) s).users.filter
        (fun u => u.chat_id == chat)).length = 1 ∧
    (∀ (t : Store) (u : String), t.users.any (fun x => x.chat_id == chat) = true →
        add_user t chat u = t) ∧
    (∀ (t : Store) (u : String), t.users.any (fun x => x.chat_id == chat) = false →
        (add_user t chat u).users = t.users ++ [⟨chat, u⟩]) := by
  refine ⟨?_, fun t u ht => by simp [add_user, ht], fun t u ht => by simp [add_user, ht]⟩
  rcases names with - | ⟨u, us⟩
  · exact absurd rfl hne
  · have hany : s.users.any (fun x => x.chat_id == chat) = false := by
      rw [List.any_eq_false]
      intro x hx
      exact (List.filter_eq_nil_iff.1 hempty) x hx
    have h1 : add_user s chat u = { s with users := s.users ++ [⟨chat, u⟩] } := by
      simp [add_user, hany]
    have h2 : ({ s with users := s.users ++ [⟨chat, u⟩] } : Store).users.any
        (fun x => x.chat_id == chat) = true := by
      simp [List.any_append]
    simp only [List.foldl_cons, h1]
    rw [add_user_fold_noop chat us _ h2]
    simp [List.filter_append, hempty]

/-- Witness for C8: two calls from a fresh store leave exactly one row. -/
theorem c8_add_user_idempotent_witness :
    emptyStore.users.filter (fun u => u.chat_id == 42) = [] ∧
    ((["alice", "bob"].foldl (fun t u => add_user t 42 u) emptyStore).users.filter
        (fun u => u.chat_id == 42)).length = 1 :=
  ⟨by decide,
    (c8_add_user_idempotent emptyStore 42 ["alice", "bob"] (by decide) (by decide)).1⟩

/-- Whatever `handle_description` persists when the transaction append
succeeds: the appended Transaction row carries the session's stored category
payload verbatim. -/
theorem handle_description_category_verbatim (t : Store) (sess2 : Session) (chat : Nat)
    (text : String) (cat : String) (fb : Bool) (hcat : sess2.category = some cat) :
    (handle_description t sess2 chat text false fb).store.transactions.map
        (fun tx => tx.category)
      = t.transactions.map (fun tx => tx.category) ++ [cat] := by
  rcases hl : lookupAccount t.accounts chat (sess2.account_id.getD 0) with - | acc
  · simp [handle_description, hl, hcat]
  · rcases fb with - | -
    · simp [handle_description, hl, hcat, update_balance]
    · simp [handle_description, hl, hcat]

/-- Claim C2 counterexample: in the spec §8 example run, the user presses the
second category button — labelled with the second entry `Groceries` of
CATEGORIES and carrying callback payload "2" — yet the persisted Transaction
stores the index string "2", not the category string. -/
theorem c2_category_counterexample :
    categoryButtons.get? 1 = some ("Groceries", "2") ∧
    CATEGORIES.get? 1 = some "Groceries" ∧
    c2Out.store.transactions.map (fun t => t.category) = ["2"] ∧
    ("2" : String) ≠ "Groceries" :=
  ⟨by decide, by decide, by decide, by decide⟩

/-- Claim C2, amended: for every k between 1 and 5, the k-th category button
is labelled with the k-th entry of CATEGORIES but carries the index string
`toString k` as its callback payload; `handle_category` stores that index
string unchanged, and the persisted Transaction's category field holds the
index string, not the category name. -/
theorem c2_category_index_stored (k : Nat) (h1 : 1 ≤ k) (h2 : k ≤ 5)
    (s : Store) (sess : Session) (chat : Nat) (text : String) :
    (categoryButtons.get? (k - 1)).map (fun p => p.1) = CATEGORIES.get? (k - 1) ∧
    (categoryButtons.get? (k - 1)).map (fun p => p.2) = some (toString k) ∧
    (handle_category s sess (toString k)).session.category = some (toString k) ∧
    ∀ (t : Store) (sess2 : Session),
      sess2.category = some (toString k) →
      (handle_description t sess2 chat text false false).store.transactions.map
          (fun tx => tx.category)
        = t.transactions.map (fun tx => tx.category) ++ [toString k] := by
  refine ⟨?_, ?_, rfl, fun t sess2 hcat =>
    handle_description_category_verbatim t sess2 chat text (toString k) false hcat⟩ <;>
    interval_cases k <;> decide

/-- Witness for the amended C2 at k = 2. -/
theorem c2_category_index_stored_witness :
    (categoryButtons.get? 1).map (fun p => p.1) = CATEGORIES.get? 1 ∧
    (categoryButtons.get? 1).map (fun p => p.2) = some (toString 2) ∧
    (handle_category emptyStore emptySession (toString 2)).session.category
      = some (toString 2) ∧
    (handle_description emptyStore ⟨none, none, none, none, none, some (toString 2), none⟩
        42 "d" false false).store.transactions.map (fun tx => tx.category)
      = emptyStore.transactions.map (fun tx => tx.category) ++ [toString 2] :=
  ⟨(c2_category_index_stored 2 (by decide) (by decide) emptyStore emptySession 42 "d").1,
    (c2_category_index_stored 2 (by decide) (by decide) emptyStore emptySession 42 "d").2.1,
    (c2_category_index_stored 2 (by decide) (by decide) emptyStore emptySession 42 "d").2.2.1,
    (c2_category_index_stored 2 (by decide) (by decide) emptyStore emptySession 42 "d").2.2.2
      emptyStore ⟨none, none, none, none, none, some (toString 2), none⟩ rfl⟩

/-- A successful `account_mappings.get` returns one of the chat's own account
rows with the requested id. -/
theorem lookupAccount_some (accounts : List AccountRec) (chat aid : Nat)
    (acc : AccountRec) (h : lookupAccount accounts chat aid = some acc) :
    acc ∈ accounts ∧ acc.chat_id = chat ∧ acc.account_id = aid := by
  unfold lookupAccount get_account_mappings at h
  have hmem := List.mem_of_find?_eq_some h
  have hprop := List.find?_some h
  rw [List.mem_reverse] at hmem
  have hf := List.mem_filter.1 hmem
  exact ⟨hf.1, by simpa using hf.2, by simpa using hprop⟩

/-- Claim C3 counterexample: account 1 is owned by chat 99 and chat 42 owns
no account, yet chat 42's AddTransaction commit with callback payload 1
appends a Transaction row referencing account 1 (the dialog then fails on
the balance update, leaving the snapshot table untouched). -/
theorem c3_ownership_counterexample :
    c3Store.accounts.map (fun a => (a.account_id, a.chat_id)) = [(1, 99)] ∧
    c3Store.accounts.filter (fun a => a.chat_id == 42) = [] ∧
    c3Out.store.transactions.map (fun t => (t.chat_id, t.account_id)) = [(42, 1)] ∧
    c3Out.store.balances = c3Store.balances ∧
    c3Out.state = ConvState.END ∧
    c3Out.replies = [Reply.persistFailTx] :=
  ⟨by decide, by decide, by decide, rfl, by decide, by decide⟩

/-- Claim C3, amended: when the account-selection payload names an account
the chat owns, the committed Transaction references that owned account; but
when it names an account the chat does not own, a Transaction row with that
foreign `account_id` is still appended — the balance update then raises, no
snapshot is appended, and the dialog ends with the generic failure reply. -/
theorem c3_ownership_on_owned_selection (s : Store) (sess : Session) (chat : Nat)
    (text : String) (acc : AccountRec)
    (hown : lookupAccount s.accounts chat (sess.account_id.getD 0) = some acc) :
    (∃ tx : TransactionRec,
        (handle_description s sess chat text false false).store.transactions
            = s.transactions ++ [tx] ∧
        tx.chat_id = chat ∧ tx.account_id = acc.account_id ∧
        acc ∈ s.accounts ∧ acc.chat_id = chat) ∧
    (∀ (t : Store) (sess2 : Session) (fb : Bool),
        lookupAccount t.accounts chat (sess2.account_id.getD 0) = none →
        (handle_description t sess2 chat text false fb).store.transactions
            = t.transactions ++
              [⟨nextTransactionId t.transactions, chat, t.now,
                sess2.transaction_amount.getD 0, sess2.account_id.getD 0,
                sess2.category.getD "", descOf text,
                if 0 < sess2.transaction_amount.getD 0 then "income" else "expense", ""⟩] ∧
        (handle_description t sess2 chat text false fb).store.balances = t.balances ∧
        (handle_description t sess2 chat text false fb).state = ConvState.END ∧
        (handle_description t sess2 chat text false fb).replies = [Reply.persistFailTx]) := by
  constructor
  · obtain ⟨hmem, hchat, haid⟩ := lookupAccount_some _ _ _ _ hown
    refine ⟨⟨nextTransactionId s.transactions, chat, s.now,
        sess.transaction_amount.getD 0, sess.account_id.getD 0,
        sess.category.getD "", descOf text,
        if 0 < sess.transaction_amount.getD 0 then "income" else "expense", ""⟩,
      ?_, rfl, haid.symm, hmem, hchat⟩
    simp [handle_description, hown, update_balance]
  · intro t sess2 fb hnone
    refine ⟨?_, ?_, ?_, ?_⟩ <;> simp [handle_description, hnone]

/-- Witness for the amended C3: chat 42 selecting its own account 1. -/
theorem c3_ownership_on_owned_selection_witness :
    lookupAccount c2Store.accounts 42
        ((⟨none, none, none, some 1, some 5, some "1", none⟩ : Session).account_id.getD 0)
      = some ⟨1, 42, "Wallet", "usual", "USD"⟩ ∧
    ∃ tx : TransactionRec,
      (handle_description c2Store ⟨none, none, none, some 1, some 5, some "1", none⟩
          42 "d" false false).store.transactions
        = c2Store.transactions ++ [tx] ∧
      tx.chat_id = 42 ∧
      tx.account_id = (⟨1, 42, "Wallet", "usual", "USD"⟩ : AccountRec).account_id ∧
      (⟨1, 42, "Wallet", "usual", "USD"⟩ : AccountRec) ∈ c2Store.accounts ∧
      (⟨1, 42, "Wallet", "usual", "USD"⟩ : AccountRec).chat_id = 42 :=
  ⟨by decide,
    (c3_ownership_on_owned_selection c2Store ⟨none, none, none, some 1, some 5, some "1", none⟩
        42 "d" ⟨1, 42, "Wallet", "usual", "USD"⟩ (by decide)).1⟩

/-- Claim C5 counterexample: when the opening-snapshot append fails after the
Account append succeeded, the dialog does reach the terminal state with the
generic failure reply, but the session is NOT cleared — `user_data.clear()`
is only reached on the success path. -/
theorem c5_session_not_cleared_counterexample :
    (initial_balance emptyStore c5Sess 42 (ParsedText.numeric "100" 100) false true).state
        = ConvState.END ∧
    (initial_balance emptyStore c5Sess 42 (ParsedText.numeric "100" 100) false true).replies
        = [Reply.accountCreated "Wallet", Reply.persistFailCreate] ∧
    (initial_balance emptyStore c5Sess 42 (ParsedText.numeric "100" 100) false true).session
        = c5Sess ∧
    c5Sess ≠ emptySession :=
  ⟨by decide, by decide, by decide, by decide⟩

/-- Claim C5, amended: on a persistence failure in either commit step the
user gets the generic failure reply and the dialog is forced to its terminal
state with no retry, and a failure after the first of the two appends leaves
that first append persisted with no second row; however the session is NOT
cleared on the failure path (the source clears `user_data` only after both
appends succeed). -/
theorem c5_persistence_failure (s : Store) (sess : Session) (chat : Nat)
    (rawB : String) (b0 : ℚ) (text : String)
    (hraw : (pyStrip rawB).isEmpty = false) :
    (initial_balance s sess chat (ParsedText.numeric rawB b0) true false
        = ⟨s, sess, ConvState.END, [Reply.persistFailCreate]⟩) ∧
    (initial_balance s sess chat (ParsedText.numeric rawB b0) false true
        = ⟨⟨s.users,
            s.accounts ++ [⟨nextAccountId s.accounts, chat, sess.account_name.getD "",
              sess.account_type.getD "", sess.currency.getD ""⟩],
            s.balances, s.transactions, s.now⟩,
          sess, ConvState.END,
          [Reply.accountCreated (sess.account_name.getD ""), Reply.persistFailCreate]⟩) ∧
    (handle_description s sess chat text true false
        = ⟨s, { sess with description := some (descOf text) }, ConvState.END,
            [Reply.persistFailTx]⟩) ∧
    ((handle_description s sess chat text false true).store.transactions
        = s.transactions ++
          [⟨nextTransactionId s.transactions, chat, s.now,
            sess.transaction_amount.getD 0, sess.account_id.getD 0,
            sess.category.getD "", descOf text,
            if 0 < sess.transaction_amount.getD 0 then "income" else "expense", ""⟩] ∧
      (handle_description s sess chat text false true).store.balances = s.balances ∧
      (handle_description s sess chat text false true).session
          = { sess with description := some (descOf text) } ∧
      (handle_description s sess chat text false true).state = ConvState.END ∧
      (handle_description s sess chat text false true).replies = [Reply.persistFailTx]) ∧
    ({ sess with description := some (descOf text) } : Session) ≠ emptySession := by
  refine ⟨?_, ?_, ?_, ?_, ?_⟩
  · simp [initial_balance, ParsedText.raw, hraw]
  · simp [initial_balance, ParsedText.raw, hraw]
  · simp [handle_description]
  · rcases hl : lookupAccount s.accounts chat (sess.account_id.getD 0) with - | acc <;>
      exact ⟨by simp [handle_description, hl], by simp [handle_description, hl],
        by simp [handle_description, hl], by simp [handle_description, hl],
        by simp [handle_description, hl]⟩
  · intro hcontra
    have := congrArg Session.description hcontra
    simp [emptySession] at this

/-- Witness for the amended C5 at a concrete ordinary CreateAccount commit
failure: the collected session (no account id) survives. -/
theorem c5_persistence_failure_witness :
    (pyStrip "100").isEmpty = false ∧
    initial_balance emptyStore c5Sess 42 (ParsedText.numeric "100" 100) true false
      = ⟨emptyStore, c5Sess, ConvState.END, [Reply.persistFailCreate]⟩ :=
  ⟨by decide,
    (c5_persistence_failure emptyStore c5Sess 42 "100" 100 "d" (by decide)).1⟩

/-- Maximum of a nonempty arithmetic range of step 1. -/
theorem pandasMax_range (k : Nat) : ∀ s : Nat, pandasMax (List.range' s (k + 1)) = s + k := by
  induction k with
  | zero => intro s; simp [pandasMax, List.range']
  | succ k ih =>
    intro s
    have h1 : List.range' s (k + 2) = s :: List.range' (s + 1) (k + 1) := rfl
    rw [h1]
    show max s (pandasMax (List.range' (s + 1) (k + 1))) = s + (k + 1)
    rw [ih (s + 1)]
    omega

/-- `[1, ..., k]` followed by `k + 1` is `[1, ..., k + 1]`. -/
theorem range1_concat (k : Nat) : List.range' 1 (k + 1) = List.range' 1 k ++ [k + 1] := by
  have h := @List.range'_concat 1 1 k
  simpa [Nat.add_comm] using h

/-- The max-plus-one minting rule on `[1, ..., k]` yields `k + 1`. -/
theorem nextIdOf_range (k : Nat) : nextIdOf (List.range' 1 k) = k + 1 := by
  rcases k with - | k
  · rfl
  · have hne : (List.range' 1 (k + 1)).isEmpty = false := rfl
    simp [nextIdOf, hne, pandasMax_range k 1, Nat.add_comm]

/-- `nextAccountId` is the generic minting rule over the id column. -/
theorem nextAccountId_eq (accs : List AccountRec) :
    nextAccountId accs = nextIdOf (accs.map (fun a => a.account_id)) := by
  cases accs <;> rfl

/-- `nextTransactionId` is the generic minting rule over the id column. -/
theorem nextTransactionId_eq (txs : List TransactionRec) :
    nextTransactionId txs = nextIdOf (txs.map (fun t => t.transaction_id)) := by
  cases txs <;> rfl

/-- The store a completed CreateAccount dialog leaves: one Account row with
the freshly minted id and one opening snapshot dated at the commit instant. -/
theorem createAccountRun_eq (s : Store) (chat : Nat) (name atype curr : String) (b0 : ℚ) :
    createAccountRun s chat name atype curr b0
      = ⟨s.users,
          s.accounts ++ [⟨nextAccountId s.accounts, chat, name, atype, curr⟩],
          s.balances ++ [⟨chat, nextAccountId s.accounts, b0, curr, s.now⟩],
          s.transactions, s.now + 1⟩ := by
  have hr : (pyStrip "1").isEmpty = false := by decide
  simp [createAccountRun, initial_balance, ParsedText.raw, hr]

/-- A completed AddTransaction dialog always appends exactly one Transaction
row carrying the freshly minted id, whatever the account lookup yields. -/
theorem recordTxRun_transactions (s : Store) (chat aid : Nat) (p : ℚ × String × String) :
    (recordTxRun s chat aid p).transactions
      = s.transactions ++
        [⟨nextTransactionId s.transactions, chat, s.now, p.1, aid, p.2.1, descOf p.2.2,
          if 0 < p.1 then "income" else "expense", ""⟩] := by
  rcases hl : lookupAccount s.accounts chat aid with - | acc
  · simp [recordTxRun, handle_description, hl]
  · simp [recordTxRun, handle_description, hl, update_balance]

/-- Folding any step that appends one freshly minted id onto an id column
holding `[1, ..., k]` yields `[1, ..., k + n]`. -/
theorem fold_ids {α σ : Type} (step : σ → α → σ) (proj : σ → List Nat)
    (hstep : ∀ (s : σ) (a : α), proj (step s a) = proj s ++ [nextIdOf (proj s)]) :
    ∀ (l : List α) (s : σ) (k : Nat), proj s = List.range' 1 k →
      proj (l.foldl step s) = List.range' 1 (k + l.length) := by
  intro l
  induction l with
  | nil => intro s k hk; simpa using hk
  | cons a t ih =>
    intro s k hk
    have h1 : proj (step s a) = List.range' 1 (k + 1) := by
      rw [hstep, hk, nextIdOf_range, range1_concat]
    have h2 := ih (step s a) (k + 1) h1
    rw [List.foldl_cons, h2]
    congr 1
    simp [Nat.add_comm, Nat.add_assoc, Nat.add_left_comm]

/-- Claim C4: starting from empty tables, n sequential account creations
assign account ids exactly {1, ..., n} in order, and n sequential transaction
recordings across all chats assign transaction ids exactly {1, ..., n} in
order; both ids are minted as max-of-existing-plus-one, or 1 on an empty
table. -/
theorem c4_sequential_ids (ps : List CreateParams) (qs : List TxParams) :
    (createFold ps).accounts.map (fun a => a.account_id) = List.range' 1 ps.length ∧
    (txFold qs).transactions.map (fun t => t.transaction_id) = List.range' 1 qs.length := by
  constructor
  · have h := fold_ids
      (fun s (p : CreateParams) => createAccountRun s p.chat p.name p.atype p.curr p.b0)
      (fun s => s.accounts.map (fun a => a.account_id))
      (fun s p => by simp [createAccountRun_eq, nextAccountId_eq])
      ps emptyStore 0 rfl
    simpa [createFold] using h
  · have h := fold_ids
      (fun s (q : TxParams) => recordTxRun s q.chat q.aid (q.amount, q.category, q.text))
      (fun s => s.transactions.map (fun t => t.transaction_id))
      (fun s q => by simp [recordTxRun_transactions, nextTransactionId_eq])
      qs emptyStore 0 rfl
    simpa [txFold] using h

/-- Folding `pickNewer` yields the seed or one of the scanned rows. -/
theorem foldl_pickNewer_mem : ∀ (l : List BalanceRec) (a : BalanceRec),
    l.foldl pickNewer a = a ∨ l.foldl pickNewer a ∈ l := by
  intro l
  induction l with
  | nil => intro a; exact Or.inl rfl
  | cons x xs ih =>
    intro a
    rcases ih (pickNewer a x) with h | h
    · rw [List.foldl_cons, h]
      unfold pickNewer
      split
      · exact Or.inr (List.mem_cons_self x xs)
      · exact Or.inl rfl
    · rw [List.foldl_cons]
      exact Or.inr (List.mem_cons_of_mem x h)

/-- A row strictly newer than every scanned row is the one the
latest-snapshot selection picks. -/
theorem pickLatest_concat (l : List BalanceRec) (r : BalanceRec)
    (h : ∀ x ∈ l, x.date < r.date) : pickLatest (l ++ [r]) = some r := by
  rcases l with - | ⟨a, as⟩
  · rfl
  · show some (List.foldl pickNewer a (as ++ [r])) = some r
    rw [List.foldl_append]
    show some (if (List.foldl pickNewer a as).date < r.date then r
      else List.foldl pickNewer a as) = some r
    have hm : (List.foldl pickNewer a as).date < r.date := by
      rcases foldl_pickNewer_mem as a with hh | hh
      · rw [hh]; exact h a (List.mem_cons_self a as)
      · exact h _ (List.mem_cons_of_mem a hh)
    rw [if_pos hm]

/-- Appending a row of the filtered pair commutes with the pair filter. -/
theorem filter_pair_append (balances : List BalanceRec) (chat aid : Nat) (row : BalanceRec)
    (hc : row.chat_id = chat) (ha : row.account_id = aid) :
    (balances ++ [row]).filter (fun r => r.chat_id == chat && r.account_id == aid)
      = balances.filter (fun r => r.chat_id == chat && r.account_id == aid) ++ [row] := by
  simp [List.filter_append, hc, ha]

/-- `update_balance` turns a current balance `b` into `b + amount`, keeps all
snapshot dates below the advanced clock, and touches neither the accounts
nor the transactions table. -/
theorem update_balance_correct (s : Store) (chat aid : Nat) (amount : ℚ) (curr : String)
    (b : ℚ) (hdates : datesBelow s)
    (hcur : currentBalance s.balances chat aid = some b) :
    currentBalance (update_balance s chat aid amount curr).1.balances chat aid
        = some (b + amount) ∧
    datesBelow (update_balance s chat aid amount curr).1 ∧
    (update_balance s chat aid amount curr).1.accounts = s.accounts ∧
    (update_balance s chat aid amount curr).1.transactions = s.transactions := by
  unfold currentBalance at hcur
  obtain ⟨r0, hr0, hb0⟩ := Option.map_eq_some'.1 hcur
  have hbal : (update_balance s chat aid amount curr).1.balances
      = s.balances ++ [⟨chat, aid, r0.balance + amount, curr, s.now⟩] := by
    simp only [update_balance, hr0]
  have hnow : (update_balance s chat aid amount curr).1.now = s.now + 1 := by
    simp only [update_balance, hr0]
  have haccs : (update_balance s chat aid amount curr).1.accounts = s.accounts := by
    simp only [update_balance, hr0]
  have htxs : (update_balance s chat aid amount curr).1.transactions = s.transactions := by
    simp only [update_balance, hr0]
  refine ⟨?_, ?_, haccs, htxs⟩
  · unfold currentBalance
    rw [hbal,
      filter_pair_append s.balances chat aid ⟨chat, aid, r0.balance + amount, curr, s.now⟩
        rfl rfl,
      pickLatest_concat]
    · simp [hb0]
    · intro x hx
      exact hdates x (List.mem_filter.1 hx).1
  · intro r hr
    rw [hbal] at hr
    rw [hnow]
    rcases List.mem_append.1 hr with hr | hr
    · exact Nat.lt_trans (hdates r hr) (Nat.lt_succ_self _)
    · rw [List.mem_singleton.1 hr]
      exact Nat.lt_succ_self _

/-- The freshly created account is what the mappings lookup returns for its
own id and owner. -/
theorem lookupAccount_append_own (accs : List AccountRec) (chat aid : Nat)
    (name atype curr : String) :
    lookupAccount (accs ++ [⟨aid, chat, name, atype, curr⟩]) chat aid
      = some ⟨aid, chat, name, atype, curr⟩ := by
  simp [lookupAccount, get_account_mappings, List.filter_append, List.reverse_append]

/-- One committed AddTransaction for an owned account adds its amount to the
current balance, preserves the clock invariant and leaves the accounts table
unchanged. -/
theorem recordTxRun_step (s : Store) (chat aid : Nat) (p : ℚ × String × String)
    (acc : AccountRec) (b : ℚ)
    (hacc : lookupAccount s.accounts chat aid = some acc)
    (hdates : datesBelow s)
    (hcur : currentBalance s.balances chat aid = some b) :
    currentBalance (recordTxRun s chat aid p).balances chat aid = some (b + p.1) ∧
    datesBelow (recordTxRun s chat aid p) ∧
    (recordTxRun s chat aid p).accounts = s.accounts := by
  have hrun : recordTxRun s chat aid p
      = (update_balance
          ⟨s.users, s.accounts, s.balances,
            s.transactions ++ [⟨nextTransactionId s.transactions, chat, s.now, p.1, aid,
              p.2.1, descOf p.2.2, if 0 < p.1 then "income" else "expense", ""⟩],
            s.now + 1⟩
          chat aid p.1 acc.currency).1 := by
    simp [recordTxRun, handle_description, hacc]
  rw [hrun]
  obtain ⟨h1, h2, h3, -⟩ := update_balance_correct
    ⟨s.users, s.accounts, s.balances,
      s.transactions ++ [⟨nextTransactionId s.transactions, chat, s.now, p.1, aid,
        p.2.1, descOf p.2.2, if 0 < p.1 then "income" else "expense", ""⟩],
      s.now + 1⟩
    chat aid p.1 acc.currency b
    (fun r hr => Nat.lt_trans (hdates r hr) (Nat.lt_succ_self _)) hcur
  exact ⟨h1, h2, h3⟩

/-- Folding committed AddTransaction dialogs accumulates the running sum of
their amounts onto the current balance. -/
theorem recordTxRun_fold (chat aid : Nat) (acc : AccountRec) :
    ∀ (txs : List (ℚ × String × String)) (s : Store) (b : ℚ),
      lookupAccount s.accounts chat aid = some acc →
      datesBelow s →
      currentBalance s.balances chat aid = some b →
      currentBalance ((txs.foldl (fun t p => recordTxRun t chat aid p) s).balances) chat aid
        = some (b + (txs.map (fun p => p.1)).sum) := by
  intro txs
  induction txs with
  | nil => intro s b _ _ h3; simpa using h3
  | cons p ps ih =>
    intro s b h1 h2 h3
    obtain ⟨hb, hd, ha⟩ := recordTxRun_step s chat aid p acc b h1 h2 h3
    have h1b : lookupAccount (recordTxRun s chat aid p).accounts chat aid = some acc := by
      rw [ha]; exact h1
    have hrec := ih (recordTxRun s chat aid p) (b + p.1) h1b hd hb
    rw [List.foldl_cons, hrec]
    simp [add_assoc]

/-- Claim C1: for an account created with initial balance b0 followed by any
chronological sequence of committed transactions, the current balance — the
balance of the snapshot with the latest timestamp for the pair — equals b0
plus the sum of the transaction amounts, regardless of each transaction's
category payload and description text (and tags, which are always empty). -/
theorem c1_balance_correctness (s0 : Store) (chat : Nat) (name atype curr : String)
    (b0 : ℚ) (txs : List (ℚ × String × String))
    (hdates : datesBelow s0)
    (hfresh : ∀ r ∈ s0.balances,
        ¬(r.chat_id = chat ∧ r.account_id = nextAccountId s0.accounts)) :
    currentBalance
        ((txs.foldl (fun t p => recordTxRun t chat (nextAccountId s0.accounts) p)
            (createAccountRun s0 chat name atype curr b0)).balances)
        chat (nextAccountId s0.accounts)
      = some (b0 + (txs.map (fun p => p.1)).sum) := by
  have hlook := lookupAccount_append_own s0.accounts chat (nextAccountId s0.accounts)
    name atype curr
  have hd : datesBelow
      (⟨s0.users,
        s0.accounts ++ [⟨nextAccountId s0.accounts, chat, name, atype, curr⟩],
        s0.balances ++ [⟨chat, nextAccountId s0.accounts, b0, curr, s0.now⟩],
        s0.transactions, s0.now + 1⟩ : Store) := by
    intro r hr
    rcases List.mem_append.1 hr with hr | hr
    · exact Nat.lt_trans (hdates r hr) (Nat.lt_succ_self _)
    · rw [List.mem_singleton.1 hr]
      exact Nat.lt_succ_self _
  have hcur : currentBalance
      (s0.balances ++ [⟨chat, nextAccountId s0.accounts, b0, curr, s0.now⟩])
      chat (nextAccountId s0.accounts) = some b0 := by
    unfold currentBalance
    have hnil : s0.balances.filter
        (fun r => r.chat_id == chat && r.account_id == nextAccountId s0.accounts) = [] := by
      rw [List.filter_eq_nil_iff]
      intro r hr
      simpa [Bool.and_eq_true, beq_iff_eq] using hfresh r hr
    rw [filter_pair_append s0.balances chat (nextAccountId s0.accounts)
      ⟨chat, nextAccountId s0.accounts, b0, curr, s0.now⟩ rfl rfl, hnil]
    rfl
  rw [createAccountRun_eq]
  exact recordTxRun_fold chat (nextAccountId s0.accounts)
    ⟨nextAccountId s0.accounts, chat, name, atype, curr⟩ txs _ b0 hlook hd hcur

/-- Witness for C1: the spec §8 example — opening balance 100, one
transaction of -25.50 — applied from empty tables. -/
theorem c1_balance_correctness_witness :
    datesBelow emptyStore ∧
    currentBalance
        (([((-51 : ℚ)/2, "2", "none")].foldl
            (fun t p => recordTxRun t 42 (nextAccountId emptyStore.accounts) p)
            (createAccountRun emptyStore 42 "Wallet" "usual" "USD" 100)).balances)
        42 (nextAccountId emptyStore.accounts)
      = some (100 + (([((-51 : ℚ)/2, "2", "none")]).map (fun p => p.1)).sum) :=
  ⟨fun r hr => absurd hr (List.not_mem_nil r),
    c1_balance_correctness emptyStore 42 "Wallet" "usual" "USD" 100
      [((-51 : ℚ)/2, "2", "none")]
      (fun r hr => absurd hr (List.not_mem_nil r))
      (fun r hr => absurd hr (List.not_mem_nil r))⟩
